import Mathlib

/-!
Shallow embedding of the devin-issue-resolver backend
(`src/backend/app/devin_client.py`, `src/backend/app/db.py`,
`src/backend/app/routes/devin.py`).

Conventions:
* Python `dict` values coming from JSON are modelled by the `Json` inductive
  below; Python's `json.loads` is modelled by `json_loads`, a strict
  recursive-descent parser of the JSON grammar (objects, arrays, strings
  with escapes, numbers, `true`/`false`/`null`).  Python accepts the
  non-standard literals `NaN`/`Infinity`; our model rejects them, which is
  observationally equal for every function in this file because those
  decodes never produce a Python `dict` and every non-`dict` decode result
  is routed to the same fallback as a decode error (`AttributeError` on
  `.get`).  Lone `\uXXXX` surrogate escapes are mapped through
  `Char.ofNat` instead of Python's surrogate code units.
* Machine integers do not occur: Python integers are unbounded, `Int` here.
* sqlite rows are modelled by `Record`; the table by a list in rowid
  (insertion) order; `CURRENT_TIMESTAMP` by a `now : Nat` argument.
-/

namespace DevinResolver

/-- A decoded JSON value as Python's `json` module returns it.
`jfloat` keeps the numeric lexeme: no function in the repository inspects a
float's value other than for truthiness, decided by `Json.pyFalsy`. -/
inductive Json where
  | null : Json
  | jbool : Bool → Json
  | jint : Int → Json
  | jfloat : String → Json
  | jstr : String → Json
  | jarr : List Json → Json
  | jobj : List (String × Json) → Json
deriving Repr

/-- JSON whitespace, the set Python's `json.loads` skips between tokens. -/
def jsonWs (c : Char) : Bool :=
  c = ' ' || c = '\t' || c = '\n' || c = '\r'

def skipWs (cs : List Char) : List Char := cs.dropWhile jsonWs

def hexVal (c : Char) : Option Nat :=
  if '0' ≤ c ∧ c ≤ '9' then some (c.toNat - '0'.toNat)
  else if 'a' ≤ c ∧ c ≤ 'f' then some (c.toNat - 'a'.toNat + 10)
  else if 'A' ≤ c ∧ c ≤ 'F' then some (c.toNat - 'A'.toNat + 10)
  else none

/-- Body of a JSON string literal after the opening quote: returns the
decoded string and the input after the closing quote.  Strict mode: raw
control characters are rejected, as are unknown escapes. -/
def parseStringBody (acc : List Char) : List Char → Option (String × List Char)
  | [] => none
  | '"' :: rest => some (String.mk acc.reverse, rest)
  | '\\' :: rest =>
    match rest with
    | [] => none
    | e :: rest2 =>
      if e = '"' then parseStringBody ('"' :: acc) rest2
      else if e = '\\' then parseStringBody ('\\' :: acc) rest2
      else if e = '/' then parseStringBody ('/' :: acc) rest2
      else if e = 'b' then parseStringBody ('\x08' :: acc) rest2
      else if e = 'f' then parseStringBody ('\x0c' :: acc) rest2
      else if e = 'n' then parseStringBody ('\n' :: acc) rest2
      else if e = 'r' then parseStringBody ('\r' :: acc) rest2
      else if e = 't' then parseStringBody ('\t' :: acc) rest2
      else if e = 'u' then
        match rest2 with
        | h1 :: h2 :: h3 :: h4 :: rest3 =>
          match hexVal h1, hexVal h2, hexVal h3, hexVal h4 with
          | some a, some b, some c, some d =>
            parseStringBody (Char.ofNat (((a * 16 + b) * 16 + c) * 16 + d) :: acc) rest3
          | _, _, _, _ => none
        | _ => none
      else none
  | c :: rest => if c.toNat < 32 then none else parseStringBody (c :: acc) rest

def digitsToNat (ds : List Char) : Nat :=
  ds.foldl (fun n c => n * 10 + (c.toNat - '0'.toNat)) 0

/-- A JSON number.  Follows the grammar Python's `json` uses:
`-?(0|[1-9][0-9]*)(\.[0-9]+)?([eE][+-]?[0-9]+)?`; a number with a fraction
or exponent part is a Python float, otherwise an int.  A leading zero stops
the integer part after the `0`, as the regex does, and leaves the following
digits in the remainder (where the caller will reject them). -/
def parseNumber (cs : List Char) : Option (Json × List Char) :=
  let p := match cs with
    | '-' :: r => (true, r)
    | _ => (false, cs)
  let neg := p.1
  let cs1 := p.2
  match cs1 with
  | [] => none
  | c :: _ =>
    if ¬ c.isDigit then none
    else
      let intPart := if c = '0' then ['0'] else cs1.takeWhile Char.isDigit
      let rest1 := if c = '0' then cs1.drop 1 else cs1.dropWhile Char.isDigit
      let fr : List Char × List Char :=
        match rest1 with
        | '.' :: r =>
          let ds := r.takeWhile Char.isDigit
          if ds = [] then ([], rest1) else ('.' :: ds, r.dropWhile Char.isDigit)
        | _ => ([], rest1)
      let fracChars := fr.1
      let rest2 := fr.2
      let ex : List Char × List Char :=
        match rest2 with
        | e :: r =>
          if e = 'e' ∨ e = 'E' then
            let sg : List Char × List Char :=
              match r with
              | '+' :: rr => (['+'], rr)
              | '-' :: rr => (['-'], rr)
              | _ => ([], r)
            let ds := sg.2.takeWhile Char.isDigit
            if ds = [] then ([], rest2)
            else (e :: (sg.1 ++ ds), sg.2.dropWhile Char.isDigit)
          else ([], rest2)
        | _ => ([], rest2)
      let expChars := ex.1
      let rest3 := ex.2
      if fracChars = [] ∧ expChars = [] then
        let n : Int := Int.ofNat (digitsToNat intPart)
        some (Json.jint (if neg then -n else n), rest3)
      else
        some (Json.jfloat (String.mk ((if neg then ['-'] else []) ++ intPart ++ fracChars ++ expChars)), rest3)

mutual

/-- One JSON value (recursive descent, fuel-bounded; `json_loads` supplies
more fuel than any input can consume). -/
def parseVal : Nat → List Char → Option (Json × List Char)
  | 0, _ => none
  | Nat.succ fuel, cs0 =>
    let cs := skipWs cs0
    if cs.take 4 = ['t', 'r', 'u', 'e'] then some (Json.jbool true, cs.drop 4)
    else if cs.take 5 = ['f', 'a', 'l', 's', 'e'] then some (Json.jbool false, cs.drop 5)
    else if cs.take 4 = ['n', 'u', 'l', 'l'] then some (Json.null, cs.drop 4)
    else
      match cs with
      | '"' :: rest => (parseStringBody [] rest).map (fun p => (Json.jstr p.1, p.2))
      | '{' :: rest =>
        let rest2 := skipWs rest
        (match rest2 with
         | '}' :: r => some (Json.jobj [], r)
         | _ => parseMembers fuel rest2 [])
      | '[' :: rest =>
        let rest2 := skipWs rest
        (match rest2 with
         | ']' :: r => some (Json.jarr [], r)
         | _ => parseItems fuel rest2 [])
      | _ => parseNumber cs

/-- Members of a JSON object after the opening brace (nonempty case). -/
def parseMembers : Nat → List Char → List (String × Json) → Option (Json × List Char)
  | 0, _, _ => none
  | Nat.succ fuel, cs, acc =>
    match cs with
    | '"' :: rest =>
      (match parseStringBody [] rest with
       | none => none
       | some (key, rest2) =>
         (match skipWs rest2 with
          | ':' :: rest3 =>
            (match parseVal fuel rest3 with
             | none => none
             | some (v, rest4) =>
               (match skipWs rest4 with
                | ',' :: rest5 => parseMembers fuel (skipWs rest5) ((key, v) :: acc)
                | '}' :: rest5 => some (Json.jobj ((key, v) :: acc).reverse, rest5)
                | _ => none))
          | _ => none))
    | _ => none

/-- Items of a JSON array after the opening bracket (nonempty case). -/
def parseItems : Nat → List Char → List Json → Option (Json × List Char)
  | 0, _, _ => none
  | Nat.succ fuel, cs, acc =>
    match parseVal fuel cs with
    | none => none
    | some (v, rest) =>
      (match skipWs rest with
       | ',' :: rest2 => parseItems fuel rest2 (v :: acc)
       | ']' :: rest2 => some (Json.jarr (v :: acc).reverse, rest2)
       | _ => none)

end

/-- Model of Python's `json.loads`: the whole input must be one JSON value
surrounded only by whitespace (otherwise `json.loads` raises, here `none`). -/
def json_loads (s : String) : Option Json :=
  match parseVal (2 * s.length + 8) s.data with
  | some (v, rest) => if skipWs rest = [] then some v else none
  | none => none

/-- `dict.get(key)` on a decoded JSON object.  Python's `dict` keeps the
last of duplicate keys, so lookup scans the reversed member list. -/
def jsonGet (kvs : List (String × Json)) (key : String) : Option Json :=
  (kvs.reverse.find? (fun p => p.1 == key)).map (fun p => p.2)

/-- ASCII whitespace as Python's `str.strip` and the `\s` regex class see it. -/
def pyWs (c : Char) : Bool :=
  c = ' ' || c = '\t' || c = '\n' || c = '\r' || c = '\x0b' || c = '\x0c'

/-- Python `str.strip()` (both ends, default whitespace), on characters. -/
def pyStripL (cs : List Char) : List Char :=
  ((cs.dropWhile pyWs).reverse.dropWhile pyWs).reverse

/-- `re.sub(r"^```(?:json)?\s*\n?", "", s)` for an `s` that starts with
three backticks: drop the backticks, a following `json` tag if present, and
all whitespace after them (the greedy `\s*` subsumes the optional `\n`). -/
def subLeadingFenceL (cs : List Char) : List Char :=
  let t := cs.drop 3
  let t := if ['j', 's', 'o', 'n'].isPrefixOf t then t.drop 4 else t
  t.dropWhile pyWs

/-- `re.sub(r"\n?```\s*$", "", s)`: when the last non-whitespace content of
`s` ends in three backticks, remove them, the trailing whitespace after
them and one newline directly before them; otherwise no match, `s` kept.
Works on the reversed character list. -/
def subTrailingFenceL (cs : List Char) : List Char :=
  let r := cs.reverse.dropWhile pyWs
  if ['`', '`', '`'].isPrefixOf r then
    let u := r.drop 3
    let u := match u with
      | '\n' :: u2 => u2
      | _ => u
    u.reverse
  else cs

/-- `devin_client.py` lines 98-101 / 214-217: strip outer whitespace, then a
markdown code fence (``` optionally tagged `json`) when one opens the text. -/
def stripFenceText (devin_text : String) : String :=
  let stripped := pyStripL devin_text.data
  if ['`', '`', '`'].isPrefixOf stripped then
    String.mk (subTrailingFenceL (subLeadingFenceL stripped))
  else String.mk stripped

/-- One transcript message, a JSON object with optional `type` and `message`
keys.  `msg.get("message", "")` yields `""` for an absent key and `None`
for a null value; both are falsy everywhere the code looks, so a null
`message` is conflated with an absent one. -/
structure Msg where
  type : Option String
  message : Option String
deriving Repr

/-- `msg.get("message", "")`. -/
def Msg.text (m : Msg) : String := m.message.getD ""

def isDevinMsg (m : Msg) : Bool := m.type == some "devin"

/-- The message-selection and fence-stripping half of
`parse_devin_response` / `parse_fix_response` (identical in both, lines
80-101 and 199-217): the last `type == "devin"` message's text; when that
is empty (no such message, or its text empty/missing), the last message's
text regardless of type; `none` when the transcript is empty or the chosen
text is empty. -/
def extract_final_message (messages : List Msg) : Option String :=
  if messages.isEmpty then none
  else
    let devin_text :=
      match messages.reverse.find? isDevinMsg with
      | some m => m.text
      | none => ""
    let devin_text :=
      if devin_text = "" then
        match messages.getLast? with
        | some m => m.text
        | none => ""
      else devin_text
    if devin_text = "" then none
    else some (stripFenceText devin_text)

/-- `max(1, min(10, confidence)) if isinstance(confidence, int) else None`.
Python's `bool` is a subclass of `int`, so a JSON `true`/`false` passes the
`isinstance` check and is clamped as `1`/`0`. -/
def pyClampConf : Option Json → Option Int
  | some (Json.jint n) => some (max 1 (min 10 n))
  | some (Json.jbool b) => some (max 1 (min 10 (if b then (1 : Int) else 0)))
  | _ => none

/-- `devin_client.py` lines 103-114: strict JSON decode of the (already
fence-stripped) text into an object with keys `plan` and
`confidence_score`; any decode failure, and any decode to a non-object
(whose `.get` raises `AttributeError`, caught by the same handler), falls
back to the raw text as the plan with no confidence. -/
def parsePlan (text : String) : Option Json × Option Int :=
  match json_loads text with
  | some (Json.jobj kvs) => (jsonGet kvs "plan", pyClampConf (jsonGet kvs "confidence_score"))
  | _ => (some (Json.jstr text), none)

/-- `parse_devin_response` (lines 79-114): message selection then plan
decode. -/
def parse_devin_response (messages : List Msg) : Option Json × Option Int :=
  match extract_final_message messages with
  | none => (none, none)
  | some t => parsePlan t

/-- `devin_client.py` lines 219-223: strict decode expecting key `pr_url`;
`none` on decode failure, non-object decode, or missing key — no raw-text
fallback. -/
def parsePullRequestUrl (text : String) : Option Json :=
  match json_loads text with
  | some (Json.jobj kvs) => jsonGet kvs "pr_url"
  | _ => none

/-- `parse_fix_response` (lines 198-223). -/
def parse_fix_response (messages : List Msg) : Option Json :=
  match extract_final_message messages with
  | none => none
  | some t => parsePullRequestUrl t

/-- Zero test for a float lexeme: a Python float is falsy exactly when its
value is `0.0`, i.e. every mantissa digit is `0` (the exponent cannot make
a zero mantissa nonzero). -/
def floatLexIsZero (lex : String) : Bool :=
  (lex.data.takeWhile (fun c => c ≠ 'e' ∧ c ≠ 'E')).all (fun c => ¬ c.isDigit ∨ c = '0')

/-- Python truthiness of a decoded JSON value. -/
def Json.pyFalsy : Json → Bool
  | Json.null => true
  | Json.jbool b => !b
  | Json.jint n => n == 0
  | Json.jfloat lex => floatLexIsZero lex
  | Json.jstr s => s == ""
  | Json.jarr l => l.isEmpty
  | Json.jobj l => l.isEmpty

/-- `x or default` for an optional JSON value, as in
`plan or "No plan was generated."`: the default replaces `None` and every
falsy value (empty string included). -/
def pyOr (p : Option Json) (dflt : String) : Json :=
  match p with
  | none => Json.jstr dflt
  | some j => if j.pyFalsy then Json.jstr dflt else j

/-- `json.dumps(STRUCTURED_OUTPUT_SCHEMA, indent=2)` for the fixed
two-field schema dict of `devin_client.py` lines 13-16. -/
def STRUCTURED_OUTPUT_SCHEMA_JSON : String :=
  "\x7b\n  \"plan\": \"A detailed, step-by-step implementation plan to resolve the issue\",\n  \"confidence_score\": 7\n\x7d"

/-- `build_prompt` (lines 27-42). -/
def build_prompt (github_url : String) (issue_id : Int) (issue_title : String) : String :=
  "Analyze the GitHub repository at " ++ github_url ++ " and specifically issue #"
    ++ toString issue_id ++ ": \"" ++ issue_title ++ "\". "
    ++ "Review the codebase and the issue, then provide:\n"
    ++ "1. A detailed implementation plan to resolve this issue\n"
    ++ "2. A confidence score from 1-10 on how likely this plan will succeed\n\n"
    ++ "IMPORTANT: Your final message MUST be ONLY valid JSON with no other text, "
    ++ "no markdown fences, and no explanation. Use this exact schema:\n"
    ++ STRUCTURED_OUTPUT_SCHEMA_JSON ++ "\n\n"
    ++ "Where:\n"
    ++ "- \"plan\" is a string with your detailed step-by-step implementation plan\n"
    ++ "- \"confidence_score\" is an integer from 1 to 10\n\n"
    ++ "Return ONLY the JSON object as your final message. Nothing else."

/-- `build_fix_prompt` (lines 179-195).  The source's step-4 line is a
plain string literal, not an f-string, so its braces and the characters
between them are literal text in the produced prompt (escaped here as
`\x7b`/`\x7d`). -/
def build_fix_prompt (github_url : String) (issue_id : Int) (issue_title : String)
    (plan : String) : String :=
  "You are tasked with fixing a GitHub issue.\n\n"
    ++ "Repository: " ++ github_url ++ "\n"
    ++ "Issue #" ++ toString issue_id ++ ": \"" ++ issue_title ++ "\"\n\n"
    ++ "Implementation plan:\n" ++ plan ++ "\n\n"
    ++ "Instructions:\n"
    ++ "1. Clone the repository and create a new branch for the fix\n"
    ++ "2. Implement the fix following the plan above\n"
    ++ "3. Commit your changes and push the branch\n"
    ++ "4. Open a pull request that references issue #\x7bissue_id\x7d\n\n"
    ++ "IMPORTANT: Your final message MUST be ONLY valid JSON with no other text, "
    ++ "no markdown fences, and no explanation. Use this exact schema:\n"
    ++ "\x7b\"pr_url\": \"https://github.com/owner/repo/pull/123\"\x7d\n\n"
    ++ "Where pr_url is the URL of the pull request you created.\n"
    ++ "Return ONLY the JSON object as your final message. Nothing else."

/-- Substring test (used to state facts about the produced prompts). -/
def strContains (hay needle : String) : Bool :=
  hay.data.tails.any (fun t => needle.data.isPrefixOf t)

/-- One row of the `devin_analyses` table (`db.py` lines 17-45), fields in
column order; the autoincrement `id` is never read back and is represented
by the row's position, `CURRENT_TIMESTAMP` by `Nat` instants. -/
structure Record where
  github_url : String
  issue_id : Int
  session_id : Option String
  status : String
  plan : Option Json
  confidence_score : Option Int
  devin_url : Option String
  created_at : Nat
  updated_at : Nat
  fix_status : Option String
  fix_session_id : Option String
  fix_devin_url : Option String
  pr_url : Option Json
deriving Repr

/-- The `**kwargs` of `upsert_analysis` / `update_analysis`: for each
column, `none` = not mentioned in the call, `some v` = set the column to
`v` (which may itself be a SQL NULL). -/
structure Kwargs where
  session_id : Option (Option String) := none
  status : Option String := none
  plan : Option (Option Json) := none
  confidence_score : Option (Option Int) := none
  devin_url : Option (Option String) := none
  fix_session_id : Option (Option String) := none
  fix_status : Option (Option String) := none
  fix_devin_url : Option (Option String) := none
  pr_url : Option (Option Json) := none
deriving Repr

/-- The `UPDATE ... SET <kwargs>, updated_at = CURRENT_TIMESTAMP` row
transformation. -/
def Kwargs.apply (kw : Kwargs) (now : Nat) (r : Record) : Record :=
  { r with
    session_id := kw.session_id.getD r.session_id
    status := kw.status.getD r.status
    plan := kw.plan.getD r.plan
    confidence_score := kw.confidence_score.getD r.confidence_score
    devin_url := kw.devin_url.getD r.devin_url
    fix_session_id := kw.fix_session_id.getD r.fix_session_id
    fix_status := kw.fix_status.getD r.fix_status
    fix_devin_url := kw.fix_devin_url.getD r.fix_devin_url
    pr_url := kw.pr_url.getD r.pr_url
    updated_at := now }

/-- `WHERE github_url = ? AND issue_id = ?`. -/
def keyEq (gh : String) (iid : Int) (r : Record) : Bool :=
  r.github_url == gh && r.issue_id == iid

/-- The table, rows in rowid (insertion) order. -/
abbrev Db := List Record

/-- `get_analysis` (`db.py` lines 50-59): point lookup, first matching row. -/
def get_analysis (db : Db) (gh : String) (iid : Int) : Option Record :=
  db.find? (keyEq gh iid)

/-- The `INSERT` branch of `upsert_analysis`: provided columns from the
kwargs, the rest from the table defaults (`status` defaults `'pending'`,
nullable columns NULL, timestamps `CURRENT_TIMESTAMP`). -/
def newRecord (now : Nat) (gh : String) (iid : Int) (kw : Kwargs) : Record :=
  { github_url := gh
    issue_id := iid
    session_id := kw.session_id.getD none
    status := kw.status.getD "pending"
    plan := kw.plan.getD none
    confidence_score := kw.confidence_score.getD none
    devin_url := kw.devin_url.getD none
    created_at := now
    updated_at := now
    fix_status := kw.fix_status.getD none
    fix_session_id := kw.fix_session_id.getD none
    fix_devin_url := kw.fix_devin_url.getD none
    pr_url := kw.pr_url.getD none }

/-- `upsert_analysis` (`db.py` lines 62-89): update every row matching the
key when one exists, else insert a fresh row. -/
def upsert_analysis (db : Db) (now : Nat) (gh : String) (iid : Int) (kw : Kwargs) : Db :=
  if (db.find? (keyEq gh iid)).isSome then
    db.map (fun r => if keyEq gh iid r then kw.apply now r else r)
  else
    db ++ [newRecord now gh iid kw]

/-- `update_analysis` (`db.py` lines 91-101): plain `UPDATE`, a silent
no-op when no row matches the key. -/
def update_analysis (db : Db) (now : Nat) (gh : String) (iid : Int) (kw : Kwargs) : Db :=
  db.map (fun r => if keyEq gh iid r then kw.apply now r else r)

/-- `delete_analysis` (`db.py` lines 104-111). -/
def delete_analysis (db : Db) (gh : String) (iid : Int) : Db :=
  db.filter (fun r => ¬ keyEq gh iid r)

/-- Outcome of `create_session`: `Except.error` models
`requests.RequestException` / non-2xx (`raise_for_status`), `Except.ok`
carries `(data.get("session_id"), data.get("url", ""))`. -/
abbrev GwResult := Except String (Option String × String)

/-- Body and code of a task-start route response (`analyze` / `fix_issue`).
On the 500 path only `error` is set; on 202 paths `error` is `none`. -/
structure StartResp where
  code : Nat
  error : Option String
  session_id : Option String
  status : Option String
  devin_url : Option String
deriving Repr

/-- A route call's full effect: response, resulting table, the prompts
passed to `create_session` (one per remote call made), and the session ids
handed to a spawned polling thread. -/
structure StartOut where
  resp : StartResp
  db : Db
  create_calls : List String
  pollers : List (Option String)
deriving Repr

/-- The create-and-persist tail of `analyze` (`routes/devin.py` lines
24-47), reached when no in-flight record exists for the key. -/
def analyzeCreate (gw : GwResult) (db : Db) (now : Nat) (gh : String) (iid : Int)
    (title : String) : StartOut :=
  let prompt := build_prompt gh iid title
  match gw with
  | Except.error e =>
    ⟨⟨500, some ("Failed to create Devin session: " ++ e), none, none, none⟩, db, [prompt], []⟩
  | Except.ok (sid, url) =>
    let db2 := upsert_analysis db now gh iid
      { session_id := some sid
        status := some "pending"
        devin_url := some (some url)
        plan := some none
        confidence_score := some none }
    ⟨⟨202, none, sid, some "pending", some url⟩, db2, [prompt], [sid]⟩

/-- `analyze` (`routes/devin.py` lines 11-47).  The body's `issue_title` is
optional (`body.get("issue_title", f"Issue #\x7bissue_id\x7d")`).  In the
in-flight 202 path `existing.get("devin_url", "")` returns the column value
even when NULL (the key is always present in the row dict), modelled as the
record's field unchanged. -/
def analyze (gw : GwResult) (db : Db) (now : Nat) (gh : String) (iid : Int)
    (issue_title : Option String) : StartOut :=
  let title := issue_title.getD ("Issue #" ++ toString iid)
  match get_analysis db gh iid with
  | some ex =>
    if ex.status = "pending" ∨ ex.status = "analyzing" then
      ⟨⟨202, none, ex.session_id, some ex.status, ex.devin_url⟩, db, [], []⟩
    else analyzeCreate gw db now gh iid title
  | none => analyzeCreate gw db now gh iid title

/-- Body of `get_analysis_status` (`routes/devin.py` lines 50-69); the
`not_found` sentinel body carries only the key and the status, the other
fields are `none` here. -/
structure StatusResp where
  github_url : String
  issue_id : Int
  status : String
  session_id : Option String
  plan : Option Json
  confidence_score : Option Int
  devin_url : Option String
deriving Repr

def get_analysis_status (db : Db) (gh : String) (iid : Int) : StatusResp :=
  match get_analysis db gh iid with
  | none => ⟨gh, iid, "not_found", none, none, none, none⟩
  | some a => ⟨a.github_url, a.issue_id, a.status, a.session_id, a.plan, a.confidence_score, a.devin_url⟩

/-- The create-and-persist tail of `fix_issue` (`routes/devin.py` lines
86-108): note the store write goes through plain `update_analysis`, not
`upsert_analysis`. -/
def fixCreate (gw : GwResult) (db : Db) (now : Nat) (gh : String) (iid : Int)
    (title : String) (plan : String) : StartOut :=
  let prompt := build_fix_prompt gh iid title plan
  match gw with
  | Except.error e =>
    ⟨⟨500, some ("Failed to create Devin fix session: " ++ e), none, none, none⟩, db, [prompt], []⟩
  | Except.ok (sid, url) =>
    let db2 := update_analysis db now gh iid
      { fix_session_id := some sid
        fix_status := some (some "pending")
        fix_devin_url := some (some url)
        pr_url := some none }
    ⟨⟨202, none, sid, some "pending", some url⟩, db2, [prompt], [sid]⟩

/-- `fix_issue` (`routes/devin.py` lines 72-108). -/
def fix_issue (gw : GwResult) (db : Db) (now : Nat) (gh : String) (iid : Int)
    (issue_title : Option String) (plan : String) : StartOut :=
  let title := issue_title.getD ("Issue #" ++ toString iid)
  match get_analysis db gh iid with
  | some ex =>
    if ex.fix_status = some "pending" ∨ ex.fix_status = some "analyzing" then
      ⟨⟨202, none, ex.fix_session_id, ex.fix_status, ex.fix_devin_url⟩, db, [], []⟩
    else fixCreate gw db now gh iid title plan
  | none => fixCreate gw db now gh iid title plan

/-- Body of `get_fix_status` (`routes/devin.py` lines 111-127). -/
structure FixStatusResp where
  github_url : String
  issue_id : Int
  fix_status : String
  fix_session_id : Option String
  fix_devin_url : Option String
  pr_url : Option Json
deriving Repr

def get_fix_status (db : Db) (gh : String) (iid : Int) : FixStatusResp :=
  match get_analysis db gh iid with
  | none => ⟨gh, iid, "not_found", none, none, none⟩
  | some a =>
    match a.fix_status with
    | none => ⟨gh, iid, "not_found", none, none, none⟩
    | some fs => ⟨a.github_url, a.issue_id, fs, a.fix_session_id, a.fix_devin_url, a.pr_url⟩

/-- `remove_analysis` (`routes/devin.py` lines 130-136): `(error, code)`
and the resulting table. -/
structure DeleteResp where
  error : Option String
  code : Nat
deriving Repr

def remove_analysis (db : Db) (gh : String) (iid : Int) : DeleteResp × Db :=
  match get_analysis db gh iid with
  | none => (⟨some "Analysis not found", 404⟩, db)
  | some _ => (⟨none, 204⟩, delete_analysis db gh iid)

/-- The remote session state as one `GET /sessions/id` returns it.
`structured_messages` is the `"messages"` list found under
`"structured_output"`: `none` when `structured_output` is absent, falsy, or
has no `"messages"` list (all of which make the code take the fallback),
`some l` when the list `l` is present — possibly empty. -/
structure Session where
  status_enum : Option String
  structured_messages : Option (List Msg)
  messages : List Msg
deriving Repr

/-- `devin_client.py` lines 133-136 / 242-245: the structured-output
message list when nonempty, else the raw message list. -/
def chooseMessages (s : Session) : List Msg :=
  let messages := s.structured_messages.getD []
  if messages.isEmpty then s.messages else messages

/-- Effect of one poll iteration on a successfully fetched session: either
loop again, or exit after one `update_analysis` write and the given
`terminate_session` calls. -/
inductive StepOut where
  | loop : StepOut
  | exit : Kwargs → List String → StepOut
deriving Repr

/-- The status dispatch of `poll_session`'s loop body (`devin_client.py`
lines 130-157). -/
def poll_step (session_id : String) (s : Session) : StepOut :=
  let status := s.status_enum.getD ""
  if status = "blocked" ∨ status = "finished" then
    let pc := parse_devin_response (chooseMessages s)
    StepOut.exit
      { status := some "completed"
        plan := some (some (pyOr pc.1 "No plan was generated."))
        confidence_score := some pc.2 }
      [session_id]
  else if status = "stopped" then
    StepOut.exit
      { status := some "failed"
        plan := some (some (Json.jstr "Session was stopped before completion.")) }
      []
  else StepOut.loop

/-- The status dispatch of `poll_fix_session`'s loop body (lines 239-264). -/
def poll_fix_step (session_id : String) (s : Session) : StepOut :=
  let status := s.status_enum.getD ""
  if status = "blocked" ∨ status = "finished" then
    let pr := parse_fix_response (chooseMessages s)
    StepOut.exit
      { fix_status := some (some "completed")
        pr_url := some pr }
      [session_id]
  else if status = "stopped" then
    StepOut.exit { fix_status := some (some "failed") } []
  else StepOut.loop

/-- What one iteration of a polling loop encounters: the fetch raises a
`requests.RequestException`, the fetch returns a session, or some other
exception is raised inside the loop body. -/
inductive PollEvent where
  | fetchErr : String → PollEvent
  | fetched : Session → PollEvent
  | crash : String → PollEvent
deriving Repr

inductive LoopOut where
  | exhausted : LoopOut
  | exited : LoopOut
  | crashed : String → LoopOut
deriving Repr, DecidableEq

/-- A polling loop's trace: the `update_analysis` kwargs it issued for its
(fixed) key in order, the sessions it terminated, and how it left the loop
(`exhausted` = the event list ran out with the loop still going). -/
structure LoopRes where
  writes : List Kwargs
  terminated : List String
  out : LoopOut
deriving Repr

/-- The `while True` loop of `poll_session` (lines 121-157): a failed fetch
is logged and skipped; a crash propagates out of the loop; a fetched
session is dispatched through `poll_step`. -/
def poll_loop (sid : String) : List PollEvent → LoopRes
  | [] => ⟨[], [], LoopOut.exhausted⟩
  | PollEvent.fetchErr _ :: rest => poll_loop sid rest
  | PollEvent.crash e :: _ => ⟨[], [], LoopOut.crashed e⟩
  | PollEvent.fetched s :: rest =>
    match poll_step sid s with
    | StepOut.loop => poll_loop sid rest
    | StepOut.exit kw terms => ⟨[kw], terms, LoopOut.exited⟩

/-- The `while True` loop of `poll_fix_session` (lines 230-264). -/
def poll_fix_loop (sid : String) : List PollEvent → LoopRes
  | [] => ⟨[], [], LoopOut.exhausted⟩
  | PollEvent.fetchErr _ :: rest => poll_fix_loop sid rest
  | PollEvent.crash e :: _ => ⟨[], [], LoopOut.crashed e⟩
  | PollEvent.fetched s :: rest =>
    match poll_fix_step sid s with
    | StepOut.loop => poll_fix_loop sid rest
    | StepOut.exit kw terms => ⟨[kw], terms, LoopOut.exited⟩

def kwAnalyzing : Kwargs := { status := some "analyzing" }

def kwFixAnalyzing : Kwargs := { fix_status := some (some "analyzing") }

/-- The write of `poll_session`'s top-level `except` handler (lines
159-166). -/
def kwCrashFailed (e : String) : Kwargs :=
  { status := some "failed"
    plan := some (some (Json.jstr ("Error during analysis: " ++ e))) }

/-- The write of `poll_fix_session`'s top-level `except` handler (lines
266-272). -/
def kwFixCrashFailed : Kwargs := { fix_status := some (some "failed") }

/-- A whole poller run's trace; `finished = false` means the event list ran
out with the loop still polling. -/
structure PollRes where
  writes : List Kwargs
  terminated : List String
  finished : Bool
deriving Repr

/-- `poll_session` (lines 117-166): the initial `analyzing` write, the
loop, and the top-level `except` that turns a crash into a `failed` write. -/
def poll_session_run (sid : String) (events : List PollEvent) : PollRes :=
  let lr := poll_loop sid events
  match lr.out with
  | LoopOut.crashed e => ⟨kwAnalyzing :: lr.writes ++ [kwCrashFailed e], lr.terminated, true⟩
  | LoopOut.exited => ⟨kwAnalyzing :: lr.writes, lr.terminated, true⟩
  | LoopOut.exhausted => ⟨kwAnalyzing :: lr.writes, lr.terminated, false⟩

/-- `poll_fix_session` (lines 226-272). -/
def poll_fix_session_run (sid : String) (events : List PollEvent) : PollRes :=
  let lr := poll_fix_loop sid events
  match lr.out with
  | LoopOut.crashed _ => ⟨kwFixAnalyzing :: lr.writes ++ [kwFixCrashFailed], lr.terminated, true⟩
  | LoopOut.exited => ⟨kwFixAnalyzing :: lr.writes, lr.terminated, true⟩
  | LoopOut.exhausted => ⟨kwFixAnalyzing :: lr.writes, lr.terminated, false⟩

/-! ### Shared lemmas about the store operations -/

lemma get_analysis_none_iff (db : Db) (gh : String) (iid : Int) :
    get_analysis db gh iid = none ↔ ∀ r ∈ db, ¬ keyEq gh iid r = true := by
  simp [get_analysis, List.find?_eq_none]

lemma countP_key_eq_zero_of_get_none (db : Db) (gh : String) (iid : Int)
    (h : get_analysis db gh iid = none) : db.countP (keyEq gh iid) = 0 :=
  List.countP_eq_zero.mpr ((get_analysis_none_iff db gh iid).mp h)

lemma update_analysis_of_get_none (db : Db) (now : Nat) (gh : String) (iid : Int)
    (kw : Kwargs) (h : get_analysis db gh iid = none) :
    update_analysis db now gh iid kw = db := by
  have hall := (get_analysis_none_iff db gh iid).mp h
  unfold update_analysis
  calc db.map (fun r => if keyEq gh iid r then kw.apply now r else r)
      = db.map id := List.map_congr_left (fun r hr => by
        simp only [id_eq]
        rw [if_neg (by simpa using hall r hr)])
    _ = db := List.map_id db

lemma get_analysis_delete (db : Db) (gh : String) (iid : Int) :
    get_analysis (delete_analysis db gh iid) gh iid = none := by
  rw [get_analysis_none_iff]
  intro r hr
  have := (List.mem_filter.mp hr).2
  simp only [decide_not] at this
  simpa using this

lemma countP_key_delete (db : Db) (gh : String) (iid : Int) :
    (delete_analysis db gh iid).countP (keyEq gh iid) = 0 :=
  List.countP_eq_zero.mpr ((get_analysis_none_iff _ gh iid).mp (get_analysis_delete db gh iid))

/-! ### Claim theorems -/

/-- C3: `parsePlan` attempts a strict JSON decode for keys `plan` and
`confidence_score` on every input; on a successful decode to an object the
confidence is the integer value clamped to `[1, 10]` (with Python's
`bool ≤ int`, a JSON boolean counts as an integer `0`/`1`), a non-integer
confidence yields `none`, and every clamped confidence lies in `[1, 10]`;
on any other decode outcome the whole raw input text comes back as the
plan with confidence `none`, so the function never fails outright; the
spec's vectors: confidence 13 is clamped to 10, -3 to 1, and `not json`
falls back to itself. -/
theorem parsePlan_contract :
    (∀ t kvs, json_loads t = some (Json.jobj kvs) →
      parsePlan t = (jsonGet kvs "plan", pyClampConf (jsonGet kvs "confidence_score"))) ∧
    (∀ t kvs n, json_loads t = some (Json.jobj kvs) →
      jsonGet kvs "confidence_score" = some (Json.jint n) →
      (parsePlan t).2 = some (max 1 (min 10 n))) ∧
    (∀ t kvs j, json_loads t = some (Json.jobj kvs) →
      jsonGet kvs "confidence_score" = some j →
      (∀ n, j ≠ Json.jint n) → (∀ b, j ≠ Json.jbool b) →
      (parsePlan t).2 = none) ∧
    (∀ oj c, pyClampConf oj = some c → 1 ≤ c ∧ c ≤ 10) ∧
    (∀ t, (∀ kvs, json_loads t ≠ some (Json.jobj kvs)) →
      parsePlan t = (some (Json.jstr t), none)) ∧
    parsePlan "\x7b\"plan\": \"do X\", \"confidence_score\": 13\x7d" = (some (Json.jstr "do X"), some 10) ∧
    parsePlan "\x7b\"plan\": \"do X\", \"confidence_score\": -3\x7d" = (some (Json.jstr "do X"), some 1) ∧
    parsePlan "not json" = (some (Json.jstr "not json"), none) := by
  have hobj : ∀ t kvs, json_loads t = some (Json.jobj kvs) →
      parsePlan t = (jsonGet kvs "plan", pyClampConf (jsonGet kvs "confidence_score")) := by
    intro t kvs h
    simp [parsePlan, h]
  have hclamp : ∀ oj c, pyClampConf oj = some c → 1 ≤ c ∧ c ≤ 10 := by
    intro oj c h
    match oj with
    | none => simp [pyClampConf] at h
    | some (Json.jint n) =>
      simp only [pyClampConf, Option.some.injEq] at h
      omega
    | some (Json.jbool b) =>
      simp only [pyClampConf, Option.some.injEq] at h
      cases b <;> simp_all <;> omega
    | some Json.null => simp [pyClampConf] at h
    | some (Json.jfloat x) => simp [pyClampConf] at h
    | some (Json.jstr x) => simp [pyClampConf] at h
    | some (Json.jarr x) => simp [pyClampConf] at h
    | some (Json.jobj x) => simp [pyClampConf] at h
  refine ⟨hobj, ?_, ?_, hclamp, ?_, by rfl, by rfl, by rfl⟩
  · intro t kvs n h hc
    rw [hobj t kvs h]
    simp [pyClampConf, hc]
  · intro t kvs j h hc hint hbool
    rw [hobj t kvs h]
    simp only [hc]
    match j with
    | Json.jint n => exact absurd rfl (hint n)
    | Json.jbool b => exact absurd rfl (hbool b)
    | Json.null => rfl
    | Json.jfloat x => rfl
    | Json.jstr x => rfl
    | Json.jarr x => rfl
    | Json.jobj x => rfl
  · intro t hne
    unfold parsePlan
    match hj : json_loads t with
    | none => rfl
    | some Json.null => rfl
    | some (Json.jbool b) => rfl
    | some (Json.jint n) => rfl
    | some (Json.jfloat x) => rfl
    | some (Json.jstr x) => rfl
    | some (Json.jarr x) => rfl
    | some (Json.jobj kvs) => exact absurd hj (hne kvs)

/-- C3 witness: the hypothesis-bearing clauses of `parsePlan_contract` at
the spec's concrete vectors. -/
theorem parsePlan_contract_witness :
    parsePlan "\x7b\"plan\": \"do X\", \"confidence_score\": 13\x7d" =
      (jsonGet [("plan", Json.jstr "do X"), ("confidence_score", Json.jint 13)] "plan",
       pyClampConf (jsonGet [("plan", Json.jstr "do X"), ("confidence_score", Json.jint 13)] "confidence_score")) ∧
    parsePlan "not json" = (some (Json.jstr "not json"), none) := by
  refine ⟨parsePlan_contract.1 _ _ (by rfl), ?_⟩
  refine parsePlan_contract.2.2.2.2.1 "not json" ?_
  intro kvs h
  rw [show json_loads "not json" = none from rfl] at h
  exact Option.noConfusion h

/-- C7: `parsePullRequestUrl` performs a strict JSON decode; on a decode to
an object it returns the value of `pr_url` (the `dict.get`, `none` when the
key is absent), on any other decode outcome it returns `none` with no
raw-text fallback; `parse_fix_response` is exactly message extraction
(whose fence-stripping precedes the decode) followed by this decode; plus
the spec's vectors. -/
theorem parsePullRequestUrl_contract :
    (∀ t kvs, json_loads t = some (Json.jobj kvs) →
      parsePullRequestUrl t = jsonGet kvs "pr_url") ∧
    (∀ t, (∀ kvs, json_loads t ≠ some (Json.jobj kvs)) →
      parsePullRequestUrl t = none) ∧
    (∀ messages, parse_fix_response messages =
      (extract_final_message messages).bind parsePullRequestUrl) ∧
    parsePullRequestUrl "\x7b\"pr_url\": \"https://github.com/o/r/pull/5\"\x7d" =
      some (Json.jstr "https://github.com/o/r/pull/5") ∧
    parsePullRequestUrl "not json" = none := by
  refine ⟨?_, ?_, ?_, by rfl, by rfl⟩
  · intro t kvs h
    simp [parsePullRequestUrl, h]
  · intro t hne
    unfold parsePullRequestUrl
    match hj : json_loads t with
    | none => rfl
    | some Json.null => rfl
    | some (Json.jbool b) => rfl
    | some (Json.jint n) => rfl
    | some (Json.jfloat x) => rfl
    | some (Json.jstr x) => rfl
    | some (Json.jarr x) => rfl
    | some (Json.jobj kvs) => exact absurd hj (hne kvs)
  · intro messages
    unfold parse_fix_response
    match extract_final_message messages with
    | none => rfl
    | some t => rfl

/-- C7 witness: the decode clauses of `parsePullRequestUrl_contract` at the
spec's concrete vectors. -/
theorem parsePullRequestUrl_contract_witness :
    parsePullRequestUrl "\x7b\"pr_url\": \"https://github.com/o/r/pull/5\"\x7d" =
      jsonGet [("pr_url", Json.jstr "https://github.com/o/r/pull/5")] "pr_url" ∧
    parsePullRequestUrl "not json" = none := by
  refine ⟨parsePullRequestUrl_contract.1 _ _ (by rfl), ?_⟩
  refine parsePullRequestUrl_contract.2.1 "not json" ?_
  intro kvs h
  rw [show json_loads "not json" = none from rfl] at h
  exact Option.noConfusion h

set_option maxRecDepth 40000 in
/-- C9: the fix prompt embeds the `pr_url` JSON schema literally, but its
step-4 pull-request instruction contains the literal placeholder text
`#\x7bissue_id\x7d` (the source line is missing the f-string prefix), so
the supplied issue identifier 5 does not appear in the pull-request
instruction of the produced text — it appears only in the header line. -/
theorem build_fix_prompt_literal_placeholder :
    strContains (build_fix_prompt "https://github.com/o/r" 5 "t" "p")
      "4. Open a pull request that references issue #\x7bissue_id\x7d" = true ∧
    strContains (build_fix_prompt "https://github.com/o/r" 5 "t" "p")
      "references issue #5" = false ∧
    strContains (build_fix_prompt "https://github.com/o/r" 5 "t" "p")
      "\x7b\"pr_url\": \"https://github.com/owner/repo/pull/123\"\x7d" = true ∧
    strContains (build_fix_prompt "https://github.com/o/r" 5 "t" "p") "Issue #5" = true := by
  refine ⟨by rfl, by rfl, by rfl, by rfl⟩

/-- C5: a poll iteration whose fetch raises a transport error performs no
store write and does not leave the loop: a run that starts with a failed
fetch is the run over the remaining events, for both the analyze and the
fix poller. -/
theorem poll_fetch_error_tolerated :
    ∀ sid e events,
      poll_loop sid (PollEvent.fetchErr e :: events) = poll_loop sid events ∧
      poll_fix_loop sid (PollEvent.fetchErr e :: events) = poll_fix_loop sid events ∧
      poll_session_run sid (PollEvent.fetchErr e :: events) = poll_session_run sid events ∧
      poll_fix_session_run sid (PollEvent.fetchErr e :: events) = poll_fix_session_run sid events := by
  intro sid e events
  refine ⟨rfl, rfl, ?_, ?_⟩
  · unfold poll_session_run
    rw [show poll_loop sid (PollEvent.fetchErr e :: events) = poll_loop sid events from rfl]
  · unfold poll_fix_session_run
    rw [show poll_fix_loop sid (PollEvent.fetchErr e :: events) = poll_fix_loop sid events from rfl]

/-- A remote status on which both pollers keep looping. -/
def nonTerminalStatus (s : Session) : Prop :=
  ¬ (s.status_enum.getD "" = "blocked" ∨ s.status_enum.getD "" = "finished" ∨
     s.status_enum.getD "" = "stopped")

/-- A loop iteration that neither exits nor raises: a failed fetch, or a
fetched session with a non-terminal status. -/
def loopEvent (ev : PollEvent) : Prop :=
  match ev with
  | PollEvent.fetchErr _ => True
  | PollEvent.crash _ => False
  | PollEvent.fetched s => nonTerminalStatus s

lemma poll_step_loop_of_nonTerminal (sid : String) (s : Session)
    (h : nonTerminalStatus s) : poll_step sid s = StepOut.loop := by
  unfold nonTerminalStatus at h
  push_neg at h
  unfold poll_step
  rw [if_neg (by tauto), if_neg (by tauto)]

lemma poll_fix_step_loop_of_nonTerminal (sid : String) (s : Session)
    (h : nonTerminalStatus s) : poll_fix_step sid s = StepOut.loop := by
  unfold nonTerminalStatus at h
  push_neg at h
  unfold poll_fix_step
  rw [if_neg (by tauto), if_neg (by tauto)]

lemma poll_loop_crashed (sid e : String) (pre rest : List PollEvent)
    (h : ∀ ev ∈ pre, loopEvent ev) :
    poll_loop sid (pre ++ PollEvent.crash e :: rest) = ⟨[], [], LoopOut.crashed e⟩ := by
  induction pre with
  | nil => rfl
  | cons ev pre ih =>
    have hev := h ev (List.mem_cons_self ev pre)
    have hpre : ∀ x ∈ pre, loopEvent x := fun x hx => h x (List.mem_cons_of_mem ev hx)
    cases ev with
    | fetchErr s => simpa [poll_loop] using ih hpre
    | crash s => exact absurd hev (by simp [loopEvent])
    | fetched s =>
      have hstep := poll_step_loop_of_nonTerminal sid s hev
      simp only [List.cons_append, poll_loop, hstep]
      exact ih hpre

lemma poll_fix_loop_crashed (sid e : String) (pre rest : List PollEvent)
    (h : ∀ ev ∈ pre, loopEvent ev) :
    poll_fix_loop sid (pre ++ PollEvent.crash e :: rest) = ⟨[], [], LoopOut.crashed e⟩ := by
  induction pre with
  | nil => rfl
  | cons ev pre ih =>
    have hev := h ev (List.mem_cons_self ev pre)
    have hpre : ∀ x ∈ pre, loopEvent x := fun x hx => h x (List.mem_cons_of_mem ev hx)
    cases ev with
    | fetchErr s => simpa [poll_fix_loop] using ih hpre
    | crash s => exact absurd hev (by simp [loopEvent])
    | fetched s =>
      have hstep := poll_fix_step_loop_of_nonTerminal sid s hev
      simp only [List.cons_append, poll_fix_loop, hstep]
      exact ih hpre

/-- C6: an unhandled exception raised inside either poller's loop — after
any run of iterations that keep looping — is caught at the poller's top
level and converted into a persisted `failed` write for the owning record
(the analyze poller's with the explanatory error-message plan, the fix
poller's with the bare `fix_status` update); the run finishes normally, so
the exception never escapes the background task. -/
theorem poll_crash_contained :
    ∀ sid e (pre rest : List PollEvent),
      (∀ ev ∈ pre, loopEvent ev) →
      poll_session_run sid (pre ++ PollEvent.crash e :: rest) =
        ⟨[kwAnalyzing, kwCrashFailed e], [], true⟩ ∧
      poll_fix_session_run sid (pre ++ PollEvent.crash e :: rest) =
        ⟨[kwFixAnalyzing, kwFixCrashFailed], [], true⟩ := by
  intro sid e pre rest h
  constructor
  · unfold poll_session_run
    rw [poll_loop_crashed sid e pre rest h]
    rfl
  · unfold poll_fix_session_run
    rw [poll_fix_loop_crashed sid e pre rest h]
    rfl


/-- C6 witness: `poll_crash_contained` at a concrete run — one failed
fetch, one non-terminal fetch, then a crash. -/
theorem poll_crash_contained_witness :
    poll_session_run "s"
      [PollEvent.fetchErr "net down",
       PollEvent.fetched ⟨some "running", none, []⟩,
       PollEvent.crash "oops"] =
      ⟨[kwAnalyzing, kwCrashFailed "oops"], [], true⟩ ∧
    poll_fix_session_run "s"
      [PollEvent.fetchErr "net down",
       PollEvent.fetched ⟨some "running", none, []⟩,
       PollEvent.crash "oops"] =
      ⟨[kwFixAnalyzing, kwFixCrashFailed], [], true⟩ := by
  have h := poll_crash_contained "s" "oops"
    [PollEvent.fetchErr "net down", PollEvent.fetched ⟨some "running", none, []⟩] []
    (by
      intro ev hev
      simp only [List.mem_cons, List.mem_singleton] at hev
      rcases hev with h1 | h1 | h1
      · subst h1; trivial
      · subst h1
        simp [loopEvent, nonTerminalStatus]
      · exact absurd h1 (by simp))
  simpa using h

/-- The message list C2 reads literally: the structured-output list
whenever it is present, the raw list only when there is none. -/
def c2LiteralChosen (s : Session) : List Msg :=
  match s.structured_messages with
  | some l => l
  | none => s.messages

/-- C2's terminal-success clause as stated: on `finished`, one `completed`
write whose plan is the parsed plan with the sentinel substituted exactly
when parsing yields nothing, and whose confidence is the parsed
confidence, reading the structured-output list whenever present. -/
def C2Literal : Prop :=
  ∀ sid s, s.status_enum.getD "" = "finished" →
    poll_step sid s =
      StepOut.exit
        { status := some "completed"
          plan := some (some (match (parse_devin_response (c2LiteralChosen s)).1 with
            | none => Json.jstr "No plan was generated."
            | some p => p))
          confidence_score := some (parse_devin_response (c2LiteralChosen s)).2 }
        [sid]

/-- The confidence column of a step's write, `none` when the step loops. -/
def stepConf : StepOut → Option (Option Int)
  | StepOut.loop => none
  | StepOut.exit kw _ => kw.confidence_score

/-- The counterexample session for C2: `finished`, a present-but-empty
structured-output message list, and a raw agent message decoding to plan
`""` with confidence 5. -/
def c2CexSession : Session :=
  ⟨some "finished", some [],
    [⟨some "devin", some "\x7b\"plan\": \"\", \"confidence_score\": 5\x7d"⟩]⟩

/-- C2 counterexample: on `c2CexSession` the code falls back to the raw
list (the claim reads the present-but-empty structured list, whose parse
yields no confidence) and writes confidence 5, and it writes the sentinel
plan even though parsing yielded the (empty) plan rather than nothing. -/
theorem poll_step_c2_literal_false : ¬ C2Literal := by
  intro h
  have E := h "sid" c2CexSession rfl
  rw [show poll_step "sid" c2CexSession =
    StepOut.exit
      { status := some "completed"
        plan := some (some (Json.jstr "No plan was generated."))
        confidence_score := some (some 5) }
      ["sid"] from rfl] at E
  have E2 := congrArg stepConf E
  rw [show (parse_devin_response (c2LiteralChosen c2CexSession)).2 = none from rfl] at E2
  simp [stepConf] at E2

/-- C2 amended: for every poll iteration of the analyze poller, a fetched
`blocked` or `finished` status yields exactly one write persisting
`completed` with the parsed plan — the sentinel substituted when parsing
yields nothing *or an empty (falsy) plan* — and the parsed confidence,
followed by a `terminate_session` call and exit; `stopped` yields one
`failed` write with the explanatory message and exit without termination;
any other status loops with no write.  The transcript is the
structured-output message list when that list is present *and nonempty*,
else the raw message list. -/
theorem poll_step_terminal_transitions :
    (∀ sid s, (s.status_enum.getD "" = "blocked" ∨ s.status_enum.getD "" = "finished") →
      poll_step sid s =
        StepOut.exit
          { status := some "completed"
            plan := some (some (pyOr (parse_devin_response (chooseMessages s)).1
              "No plan was generated."))
            confidence_score := some (parse_devin_response (chooseMessages s)).2 }
          [sid]) ∧
    (∀ sid s, s.status_enum.getD "" = "stopped" →
      poll_step sid s =
        StepOut.exit
          { status := some "failed"
            plan := some (some (Json.jstr "Session was stopped before completion.")) }
          []) ∧
    (∀ sid s, s.status_enum.getD "" ≠ "blocked" → s.status_enum.getD "" ≠ "finished" →
      s.status_enum.getD "" ≠ "stopped" → poll_step sid s = StepOut.loop) ∧
    (∀ s l, s.structured_messages = some l → l ≠ [] → chooseMessages s = l) ∧
    (∀ s, s.structured_messages = none ∨ s.structured_messages = some [] →
      chooseMessages s = s.messages) ∧
    pyOr none "No plan was generated." = Json.jstr "No plan was generated." ∧
    pyOr (some (Json.jstr "")) "No plan was generated." = Json.jstr "No plan was generated." ∧
    (∀ p, p ≠ "" → pyOr (some (Json.jstr p)) "No plan was generated." = Json.jstr p) := by
  refine ⟨?_, ?_, ?_, ?_, ?_, rfl, rfl, ?_⟩
  · intro sid s h
    unfold poll_step
    rw [if_pos h]
  · intro sid s h
    unfold poll_step
    rw [if_neg (by simp [h]), if_pos h]
  · intro sid s h1 h2 h3
    unfold poll_step
    rw [if_neg (by tauto), if_neg h3]
  · intro s l hs hl
    unfold chooseMessages
    rw [hs]
    simp [hl]
  · intro s hs
    rcases hs with h | h <;> simp [chooseMessages, h]
  · intro p hp
    simp [pyOr, Json.pyFalsy, hp]

/-- C2 witness: the three branch clauses of `poll_step_terminal_transitions`
at concrete sessions. -/
theorem poll_step_terminal_transitions_witness :
    poll_step "s" ⟨some "finished", none, []⟩ =
      StepOut.exit
        { status := some "completed"
          plan := some (some (pyOr
            (parse_devin_response (chooseMessages ⟨some "finished", none, []⟩)).1
            "No plan was generated."))
          confidence_score := some
            (parse_devin_response (chooseMessages ⟨some "finished", none, []⟩)).2 }
        ["s"] ∧
    poll_step "s" ⟨some "stopped", none, []⟩ =
      StepOut.exit
        { status := some "failed"
          plan := some (some (Json.jstr "Session was stopped before completion.")) }
        [] ∧
    poll_step "s" ⟨some "running", none, []⟩ = StepOut.loop := by
  refine ⟨poll_step_terminal_transitions.1 "s" _ (Or.inr rfl),
    poll_step_terminal_transitions.2.1 "s" _ rfl,
    poll_step_terminal_transitions.2.2.1 "s" _ ?_ ?_ ?_⟩ <;> decide

/-- C4's selection rule as stated: with at least one agent-authored message
in the transcript, the chosen message is the most recent agent-authored
one, the result is `none` exactly when that message has no text, and
otherwise its (fence-stripped) text — later non-agent messages never
contribute. -/
def C4Literal : Prop :=
  ∀ messages : List Msg, (∃ m ∈ messages, isDevinMsg m) →
    extract_final_message messages =
      match messages.reverse.find? isDevinMsg with
      | some m => if m.text = "" then none else some (stripFenceText m.text)
      | none => none

/-- C4 counterexample: a transcript whose (only) agent-authored message has
empty text followed by a user message; the code falls back to the last
message and returns the user's text, where the claim requires `none` (the
chosen agent message has no text). -/
theorem extract_final_message_literal_false : ¬ C4Literal := by
  intro h
  have E := h [⟨some "devin", some ""⟩, ⟨some "user", some " bye "⟩]
    ⟨⟨some "devin", some ""⟩, by simp, by rfl⟩
  rw [show extract_final_message [⟨some "devin", some ""⟩, ⟨some "user", some " bye "⟩] =
    some "bye" from rfl] at E
  rw [show ([⟨some "devin", some ""⟩, ⟨some "user", some " bye "⟩] : List Msg).reverse.find?
    isDevinMsg = some ⟨some "devin", some ""⟩ from rfl] at E
  simp [Msg.text] at E

/-- C4 amended: the chosen message is the most recent agent-authored one
when that message has nonempty text, and its whitespace-trimmed,
fence-stripped text is returned; when no agent-authored message exists *or
the most recent one has empty or missing text*, the last message's text is
used regardless of author, `none` when the transcript is empty or that
fallback text is also empty. -/
theorem extract_final_message_selection :
    (∀ messages m, messages.reverse.find? isDevinMsg = some m → m.text ≠ "" →
      extract_final_message messages = some (stripFenceText m.text)) ∧
    (∀ messages, messages ≠ [] →
      (messages.reverse.find? isDevinMsg = none ∨
        (∃ m, messages.reverse.find? isDevinMsg = some m ∧ m.text = "")) →
      extract_final_message messages =
        match messages.getLast? with
        | some mL => if mL.text = "" then none else some (stripFenceText mL.text)
        | none => none) ∧
    extract_final_message [] = none := by
  refine ⟨?_, ?_, rfl⟩
  · intro messages m hf ht
    have hne : messages ≠ [] := by
      intro h0
      subst h0
      simp at hf
    have hemp : messages.isEmpty = false := by
      simpa [List.isEmpty_iff] using hne
    unfold extract_final_message
    rw [hemp, hf]
    simp only [Bool.false_eq_true, if_false]
    rw [if_neg ht, if_neg ht]
  · intro messages hne hcase
    have hemp : messages.isEmpty = false := by
      simpa [List.isEmpty_iff] using hne
    unfold extract_final_message
    rw [hemp]
    simp only [Bool.false_eq_true, if_false]
    rcases hcase with h | ⟨m, hm, hmt⟩
    · cases hlast : messages.getLast? with
      | none => simp [h, hlast]
      | some mL => by_cases hL : mL.text = "" <;> simp [h, hlast, hL]
    · cases hlast : messages.getLast? with
      | none => simp [hm, hmt, hlast]
      | some mL => by_cases hL : mL.text = "" <;> simp [hm, hmt, hlast, hL]

/-- C4 witness: the amended selection at concrete transcripts — an agent
message with text followed by a user message (agent text wins), and the
counterexample transcript (fallback to the last message). -/
theorem extract_final_message_selection_witness :
    extract_final_message [⟨some "user", some "q"⟩, ⟨some "devin", some "hi"⟩,
      ⟨some "user", some "later"⟩] = some (stripFenceText "hi") ∧
    extract_final_message [⟨some "devin", some ""⟩, ⟨some "user", some " bye "⟩] =
      some (stripFenceText " bye ") := by
  constructor
  · exact extract_final_message_selection.1 _ ⟨some "devin", some "hi"⟩ (by rfl) (by decide)
  · have h := extract_final_message_selection.2.1
      [⟨some "devin", some ""⟩, ⟨some "user", some " bye "⟩] (by simp)
      (Or.inr ⟨⟨some "devin", some ""⟩, by rfl, by rfl⟩)
    simpa using h

/-- C8: `remove_analysis` fails with the not-found error and code 404,
leaving the table untouched, exactly when no record exists for the key;
otherwise it answers 204 and deletes every row of the key — all analysis
and fix lifecycle fields go with the row — so a subsequent analysis-status
or fix-status read returns the `not_found` sentinel. -/
theorem remove_analysis_contract :
    ∀ db gh iid,
      (get_analysis db gh iid = none →
        remove_analysis db gh iid = (⟨some "Analysis not found", 404⟩, db)) ∧
      (∀ r, get_analysis db gh iid = some r →
        (remove_analysis db gh iid).1 = ⟨none, 204⟩ ∧
        get_analysis (remove_analysis db gh iid).2 gh iid = none ∧
        (remove_analysis db gh iid).2.countP (keyEq gh iid) = 0 ∧
        (get_analysis_status (remove_analysis db gh iid).2 gh iid).status = "not_found" ∧
        (get_fix_status (remove_analysis db gh iid).2 gh iid).fix_status = "not_found") := by
  intro db gh iid
  constructor
  · intro h
    unfold remove_analysis
    rw [h]
  · intro r h
    have hdel : (remove_analysis db gh iid).2 = delete_analysis db gh iid := by
      unfold remove_analysis
      rw [h]
    have hresp : (remove_analysis db gh iid).1 = ⟨none, 204⟩ := by
      unfold remove_analysis
      rw [h]
    have hget := get_analysis_delete db gh iid
    refine ⟨hresp, by rw [hdel]; exact hget, by rw [hdel]; exact countP_key_delete db gh iid, ?_, ?_⟩
    · rw [hdel]
      unfold get_analysis_status
      rw [hget]
    · rw [hdel]
      unfold get_fix_status
      rw [hget]

/-- C8 witness: `remove_analysis_contract` at a one-row table holding the
key (delete succeeds, both lifecycle reads then see `not_found`) and at the
empty table (delete fails with 404 and changes nothing). -/
theorem remove_analysis_contract_witness :
    (remove_analysis [⟨"g", 1, some "s", "completed", none, some 7, some "u", 0, 3,
        some "completed", some "fs", some "fu", some (Json.jstr "pr")⟩] "g" 1).1 =
      ⟨none, 204⟩ ∧
    get_analysis (remove_analysis [⟨"g", 1, some "s", "completed", none, some 7, some "u", 0, 3,
        some "completed", some "fs", some "fu", some (Json.jstr "pr")⟩] "g" 1).2 "g" 1 = none ∧
    (get_fix_status (remove_analysis [⟨"g", 1, some "s", "completed", none, some 7, some "u", 0, 3,
        some "completed", some "fs", some "fu", some (Json.jstr "pr")⟩] "g" 1).2 "g" 1).fix_status =
      "not_found" ∧
    remove_analysis [] "g" 1 = (⟨some "Analysis not found", 404⟩, []) := by
  have h2 := (remove_analysis_contract [⟨"g", 1, some "s", "completed", none, some 7, some "u",
    0, 3, some "completed", some "fs", some "fu", some (Json.jstr "pr")⟩] "g" 1).2 _ (by rfl)
  exact ⟨h2.1, h2.2.1, h2.2.2.2.2, (remove_analysis_contract [] "g" 1).1 rfl⟩

/-- A sequence of `update_analysis` writes against one key, each with its
own timestamp — the shape of every store write the fix path issues. -/
def applyUpdates (db : Db) (gh : String) (iid : Int) (ws : List (Nat × Kwargs)) : Db :=
  ws.foldl (fun d nk => update_analysis d nk.1 gh iid nk.2) db

lemma applyUpdates_of_get_none (db : Db) (gh : String) (iid : Int)
    (h : get_analysis db gh iid = none) :
    ∀ ws, applyUpdates db gh iid ws = db := by
  intro ws
  induction ws with
  | nil => rfl
  | cons w ws ih =>
    unfold applyUpdates at ih ⊢
    simp only [List.foldl_cons]
    rw [update_analysis_of_get_none db w.1 gh iid w.2 h]
    exact ih

/-- C10: starting a fix for a key with no record still creates the remote
session, answers 202 with the new session identifiers and spawns a fix
poller, yet never creates a record: its own write and every sequence of
key-addressed `update_analysis` writes (in particular the spawned fix
poller's writes) match zero rows and leave the table unchanged, so a later
`get_fix_status` read returns the `not_found` sentinel. -/
theorem fix_issue_missing_key_no_record :
    ∀ db now gh iid title plan sid url,
      get_analysis db gh iid = none →
      (fix_issue (Except.ok (sid, url)) db now gh iid title plan).resp.code = 202 ∧
      (fix_issue (Except.ok (sid, url)) db now gh iid title plan).resp.session_id = sid ∧
      (fix_issue (Except.ok (sid, url)) db now gh iid title plan).resp.status = some "pending" ∧
      (fix_issue (Except.ok (sid, url)) db now gh iid title plan).resp.devin_url = some url ∧
      (fix_issue (Except.ok (sid, url)) db now gh iid title plan).db = db ∧
      (fix_issue (Except.ok (sid, url)) db now gh iid title plan).create_calls =
        [build_fix_prompt gh iid (title.getD ("Issue #" ++ toString iid)) plan] ∧
      (fix_issue (Except.ok (sid, url)) db now gh iid title plan).pollers = [sid] ∧
      (∀ ws : List (Nat × Kwargs), applyUpdates db gh iid ws = db) ∧
      (∀ sid2 events now2, applyUpdates db gh iid
        ((poll_fix_session_run sid2 events).writes.map (fun kw => (now2, kw))) = db) ∧
      (∀ ws : List (Nat × Kwargs),
        get_fix_status (applyUpdates db gh iid ws) gh iid = ⟨gh, iid, "not_found", none, none, none⟩) := by
  intro db now gh iid title plan sid url h
  have hupd := update_analysis_of_get_none db now gh iid
    { fix_session_id := some sid
      fix_status := some (some "pending")
      fix_devin_url := some (some url)
      pr_url := some none } h
  have e1 : fix_issue (Except.ok (sid, url)) db now gh iid title plan =
      ⟨⟨202, none, sid, some "pending", some url⟩, db,
        [build_fix_prompt gh iid (title.getD ("Issue #" ++ toString iid)) plan], [sid]⟩ := by
    unfold fix_issue
    rw [h]
    dsimp only
    unfold fixCreate
    dsimp only
    rw [hupd]
  have happ := applyUpdates_of_get_none db gh iid h
  refine ⟨by rw [e1], by rw [e1], by rw [e1], by rw [e1], by rw [e1], by rw [e1], by rw [e1],
    happ, fun sid2 events now2 => happ _, ?_⟩
  intro ws
  rw [happ ws]
  unfold get_fix_status
  rw [h]

/-- C10 witness: `fix_issue_missing_key_no_record` on the empty table with
a concrete fix poller run applied afterwards. -/
theorem fix_issue_missing_key_no_record_witness :
    (fix_issue (Except.ok (some "s", "u")) [] 0 "g" 1 none "p").resp.code = 202 ∧
    (fix_issue (Except.ok (some "s", "u")) [] 0 "g" 1 none "p").db = [] ∧
    applyUpdates [] "g" 1
      ((poll_fix_session_run "s" [PollEvent.fetched ⟨some "stopped", none, []⟩]).writes.map
        (fun kw => (7, kw))) = [] ∧
    get_fix_status (applyUpdates [] "g" 1 [(7, kwFixAnalyzing)]) "g" 1 =
      ⟨"g", 1, "not_found", none, none, none⟩ := by
  have h := fix_issue_missing_key_no_record [] 0 "g" 1 none "p" (some "s") "u" rfl
  exact ⟨h.1, h.2.2.2.2.1, h.2.2.2.2.2.2.2.2.1 "s" _ 7, h.2.2.2.2.2.2.2.2.2 [(7, kwFixAnalyzing)]⟩

/-- C1: when a record for the key is already `pending` or `analyzing`,
`analyze` answers 202 with that record's session identifiers and performs
no store write, no remote create call, and spawns no poller; consequently
two immediately successive `analyze` calls on a key with no record — the
first one's session creation succeeding — leave exactly one stored record
and one remote create call, the second call answering 202 with the first
call's identifiers and touching nothing. -/
theorem analyze_idempotent_start :
    (∀ gw db now gh iid title ex,
      get_analysis db gh iid = some ex →
      ex.status = "pending" ∨ ex.status = "analyzing" →
      analyze gw db now gh iid title =
        ⟨⟨202, none, ex.session_id, some ex.status, ex.devin_url⟩, db, [], []⟩) ∧
    (∀ db now now2 gh iid title sid url gw2,
      get_analysis db gh iid = none →
      (analyze (Except.ok (sid, url)) db now gh iid title).resp =
        ⟨202, none, sid, some "pending", some url⟩ ∧
      (analyze (Except.ok (sid, url)) db now gh iid title).create_calls =
        [build_prompt gh iid (title.getD ("Issue #" ++ toString iid))] ∧
      (analyze (Except.ok (sid, url)) db now gh iid title).pollers = [sid] ∧
      ((analyze (Except.ok (sid, url)) db now gh iid title).db).countP (keyEq gh iid) = 1 ∧
      analyze gw2 (analyze (Except.ok (sid, url)) db now gh iid title).db now2 gh iid title =
        ⟨⟨202, none, sid, some "pending", some url⟩,
          (analyze (Except.ok (sid, url)) db now gh iid title).db, [], []⟩) := by
  constructor
  · intro gw db now gh iid title ex hex hst
    unfold analyze
    rw [hex]
    dsimp only
    rw [if_pos hst]
  · intro db now now2 gh iid title sid url gw2 h
    have hfind : db.find? (keyEq gh iid) = none := h
    have e1 : analyze (Except.ok (sid, url)) db now gh iid title =
        ⟨⟨202, none, sid, some "pending", some url⟩,
          db ++ [newRecord now gh iid
            { session_id := some sid
              status := some "pending"
              devin_url := some (some url)
              plan := some none
              confidence_score := some none }],
          [build_prompt gh iid (title.getD ("Issue #" ++ toString iid))], [sid]⟩ := by
      unfold analyze
      rw [h]
      dsimp only
      unfold analyzeCreate
      dsimp only
      unfold upsert_analysis
      rw [hfind]
      rfl
    have hdb : (analyze (Except.ok (sid, url)) db now gh iid title).db =
        db ++ [newRecord now gh iid
          { session_id := some sid
            status := some "pending"
            devin_url := some (some url)
            plan := some none
            confidence_score := some none }] := by
      rw [e1]
    have hkey : keyEq gh iid (newRecord now gh iid
        { session_id := some sid
          status := some "pending"
          devin_url := some (some url)
          plan := some none
          confidence_score := some none }) = true := by
      simp [keyEq, newRecord]
    have hget2 : get_analysis (db ++ [newRecord now gh iid
        { session_id := some sid
          status := some "pending"
          devin_url := some (some url)
          plan := some none
          confidence_score := some none }]) gh iid =
        some (newRecord now gh iid
          { session_id := some sid
            status := some "pending"
            devin_url := some (some url)
            plan := some none
            confidence_score := some none }) := by
      unfold get_analysis
      rw [List.find?_append, hfind]
      rw [List.find?_cons_of_pos _ hkey]
      rfl
    have hcount : (db ++ [newRecord now gh iid
        { session_id := some sid
          status := some "pending"
          devin_url := some (some url)
          plan := some none
          confidence_score := some none }]).countP (keyEq gh iid) = 1 := by
      rw [List.countP_append, countP_key_eq_zero_of_get_none db gh iid h]
      simp [hkey]
    have e2 : analyze gw2 (db ++ [newRecord now gh iid
        { session_id := some sid
          status := some "pending"
          devin_url := some (some url)
          plan := some none
          confidence_score := some none }]) now2 gh iid title =
        ⟨⟨202, none, sid, some "pending", some url⟩,
          db ++ [newRecord now gh iid
            { session_id := some sid
              status := some "pending"
              devin_url := some (some url)
              plan := some none
              confidence_score := some none }], [], []⟩ := by
      unfold analyze
      rw [hget2]
      dsimp only
      simp [newRecord]
    refine ⟨by rw [e1], by rw [e1], by rw [e1], by rw [hdb]; exact hcount, ?_⟩
    rw [hdb]
    exact e2

/-- C1 witness: the two-call scenario on the empty table, and the in-flight
clause on the table the first call produced. -/
theorem analyze_idempotent_start_witness :
    (analyze (Except.ok (some "s", "u")) [] 0 "g" 1 none).resp =
      ⟨202, none, some "s", some "pending", some "u"⟩ ∧
    (analyze (Except.ok (some "s", "u")) [] 0 "g" 1 none).create_calls =
      [build_prompt "g" 1 "Issue #1"] ∧
    ((analyze (Except.ok (some "s", "u")) [] 0 "g" 1 none).db).countP (keyEq "g" 1) = 1 ∧
    analyze (Except.error "down") (analyze (Except.ok (some "s", "u")) [] 0 "g" 1 none).db 9 "g" 1 none =
      ⟨⟨202, none, some "s", some "pending", some "u"⟩,
        (analyze (Except.ok (some "s", "u")) [] 0 "g" 1 none).db, [], []⟩ := by
  have h := (analyze_idempotent_start.2 [] 0 9 "g" 1 none (some "s") "u" (Except.error "down")) rfl
  exact ⟨h.1, h.2.1, h.2.2.2.1, h.2.2.2.2⟩

end DevinResolver
